import Mathlib

/-!
Shallow embedding of `Scripts/validate_questions.py` (UK Driving Theory Test
question validation script).

Python strings are modelled as Lean `String`; `str.strip()`, `str.lower()`,
`str.upper()` are modelled on the underlying character list (the data of the
script is plain ASCII, where the two languages agree).  CSV reading and file
errors are collaborator concerns: the core `validate_questions` is modelled as
a function from the parsed row list to the (questions, errors) pair.
-/

set_option maxRecDepth 100000

namespace DrivingTheory

/-- Model of Python `str.strip()`: drop leading and trailing whitespace. -/
def pyStrip (s : String) : String :=
  ⟨((s.data.dropWhile Char.isWhitespace).reverse.dropWhile Char.isWhitespace).reverse⟩

/-- Model of Python `str.lower()` (ASCII). -/
def pyLower (s : String) : String := ⟨s.data.map Char.toLower⟩

/-- Model of Python `str.upper()` (ASCII). -/
def pyUpper (s : String) : String := ⟨s.data.map Char.toUpper⟩

/-- One parsed CSV record: `row.get(field, '')` for each schema field.
Missing fields are the empty string. -/
structure RawRow where
  status : String
  id : String
  category : String
  difficulty : String
  question : String
  optionA : String
  optionB : String
  optionC : String
  optionD : String
  correctAnswer : String
  explanation : String
  imageURL : String
deriving DecidableEq, Repr

/-- The `ValidationError` class of the script: subject id, message, and a
severity string (one of "error", "warning", "info"). -/
structure ValidationError where
  question_id : String
  error : String
  severity : String
deriving DecidableEq, Repr

/-- The question dict built for each processed Ready row. -/
structure Question where
  id : String
  text : String
  options : List String
  correctAnswer : Nat
  explanation : String
  category : String
  difficulty : String
  imageURL : Option String
deriving DecidableEq, Repr

/-- `VALID_CATEGORIES`, in the order written in the source.  The source uses a
Python `set`, whose iteration order is unspecified; membership tests do not
depend on the order. -/
def VALID_CATEGORIES : List String :=
  ["alertness", "attitudeToOtherRoadUsers", "safetyAndYourVehicle", "safetyMargins",
   "hazardAwareness", "vulnerableRoadUsers", "otherTypesOfVehicle", "vehicleHandling",
   "motorwayRules", "rulesOfTheRoad", "roadAndTrafficSigns", "essentialDocuments",
   "incidents", "vehicleLoading"]

/-- `VALID_DIFFICULTIES`. -/
def VALID_DIFFICULTIES : List String := ["easy", "medium", "hard"]

/-- `sorted(VALID_CATEGORIES)` as used in the invalid-category message. -/
def sortedCategories : List String :=
  ["alertness", "attitudeToOtherRoadUsers", "essentialDocuments", "hazardAwareness",
   "incidents", "motorwayRules", "otherTypesOfVehicle", "roadAndTrafficSigns",
   "rulesOfTheRoad", "safetyAndYourVehicle", "safetyMargins", "vehicleHandling",
   "vehicleLoading", "vulnerableRoadUsers"]

def invalidCategoryMsg (c : String) : String :=
  "Invalid category \x27" ++ c ++ "\x27. Must be one of: " ++
    String.intercalate ", " sortedCategories

def invalidDifficultyMsg (d : String) : String :=
  "Invalid difficulty \x27" ++ d ++ "\x27. Must be: easy, medium, or hard"

def questionTooLongMsg (n : Nat) : String :=
  "Question text too long (" ++ toString n ++ " chars)"

def invalidAnswerMsg (a : String) : String :=
  "Invalid correct answer \x27" ++ a ++ "\x27. Must be A, B, C, or D"

def explanationTooShortMsg (n : Nat) : String :=
  "Explanation too short (" ++ toString n ++ " chars, minimum 20)"

def explanationTooLongMsg (n : Nat) : String :=
  "Explanation too long (" ++ toString n ++ " chars, maximum 500)"

/-- Category rule (source lines 76-83), as an independent rule function:
the findings it contributes for a given row. -/
def categoryFindings (qid cat : String) : List ValidationError :=
  let category := pyStrip cat
  if category ∈ VALID_CATEGORIES then []
  else [⟨qid, invalidCategoryMsg category, "error"⟩]

/-- Difficulty rule (source lines 85-92). -/
def difficultyFindings (qid diff : String) : List ValidationError :=
  let difficulty := pyLower (pyStrip diff)
  if difficulty ∈ VALID_DIFFICULTIES then []
  else [⟨qid, invalidDifficultyMsg difficulty, "error"⟩]

/-- Question-text rule (source lines 94-101). -/
def questionTextFindings (qid q : String) : List ValidationError :=
  let question_text := pyStrip q
  if question_text = "" then [⟨qid, "Empty question text", "error"⟩]
  else if question_text.length < 10 then
    [⟨qid, "Question text too short (< 10 chars)", "warning"⟩]
  else if 300 < question_text.length then
    [⟨qid, questionTooLongMsg question_text.length, "warning"⟩]
  else []

/-- Options rules (source lines 103-116): missing-option error (Python
`not all(options)` means some option is empty) followed by the
duplicate-options warning (`len(set(options)) != len(options)`). -/
def optionsFindings (qid a b c d : String) : List ValidationError :=
  let options := [pyStrip a, pyStrip b, pyStrip c, pyStrip d]
  (if "" ∈ options then
     [⟨qid, "Missing one or more options (need exactly 4)", "error"⟩]
   else []) ++
  (if options.Nodup then []
   else [⟨qid, "Duplicate options detected", "warning"⟩])

/-- Correct-answer rule (source lines 118-125). -/
def answerFindings (qid ca : String) : List ValidationError :=
  let correct_answer := pyUpper (pyStrip ca)
  if correct_answer ∈ ["A", "B", "C", "D"] then []
  else [⟨qid, invalidAnswerMsg correct_answer, "error"⟩]

/-- Explanation rule (source lines 131-138). -/
def explanationFindings (qid e : String) : List ValidationError :=
  let explanation := pyStrip e
  if explanation = "" then [⟨qid, "Empty explanation", "error"⟩]
  else if explanation.length < 20 then
    [⟨qid, explanationTooShortMsg explanation.length, "warning"⟩]
  else if 500 < explanation.length then
    [⟨qid, explanationTooLongMsg explanation.length, "warning"⟩]
  else []

/-- All findings a fully processed Ready row contributes, in source order. -/
def rowFindings (r : RawRow) : List ValidationError :=
  let qid := pyStrip r.id
  categoryFindings qid r.category ++ difficultyFindings qid r.difficulty ++
    questionTextFindings qid r.question ++
    optionsFindings qid r.optionA r.optionB r.optionC r.optionD ++
    answerFindings qid r.correctAnswer ++ explanationFindings qid r.explanation

/-- `answer_map.get(correct_answer, 0)` (source lines 127-129). -/
def answerIndex (a : String) : Nat :=
  if a = "A" then 0 else if a = "B" then 1 else if a = "C" then 2
  else if a = "D" then 3 else 0

/-- The question dict built for a processed row (source lines 140-150). -/
def buildQuestion (r : RawRow) : Question :=
  { id := pyStrip r.id
    text := pyStrip r.question
    options := [pyStrip r.optionA, pyStrip r.optionB, pyStrip r.optionC, pyStrip r.optionD]
    correctAnswer := answerIndex (pyUpper (pyStrip r.correctAnswer))
    explanation := pyStrip r.explanation
    category := pyStrip r.category
    difficulty := pyLower (pyStrip r.difficulty)
    imageURL := if pyStrip r.imageURL = "" then none else some (pyStrip r.imageURL) }

/-- The mutable state of one `validate_questions` run: the accepted question
list, the finding list, and the set of seen ids (modelled as a list, only
membership matters). -/
structure VState where
  questions : List Question
  errors : List ValidationError
  seen : List String
deriving DecidableEq, Repr

/-- The body of the row loop of `validate_questions` (source lines 56-152),
for one row `r` at ordinal `n`. -/
def processRow (s : VState) (n : Nat) (r : RawRow) : VState :=
  if pyStrip r.status ≠ "Ready" then s
  else
    let question_id := pyStrip r.id
    if question_id = "" then
      { s with errors := s.errors ++ [⟨"Row " ++ toString n, "Missing ID", "error"⟩] }
    else if question_id ∈ s.seen then
      { s with errors := s.errors ++ [⟨question_id, "Duplicate ID", "error"⟩] }
    else
      let category := pyStrip r.category
      let e_cat : List ValidationError :=
        if category ∈ VALID_CATEGORIES then []
        else [⟨question_id, invalidCategoryMsg category, "error"⟩]
      let difficulty := pyLower (pyStrip r.difficulty)
      let e_diff : List ValidationError :=
        if difficulty ∈ VALID_DIFFICULTIES then []
        else [⟨question_id, invalidDifficultyMsg difficulty, "error"⟩]
      let question_text := pyStrip r.question
      let e_q : List ValidationError :=
        if question_text = "" then [⟨question_id, "Empty question text", "error"⟩]
        else if question_text.length < 10 then
          [⟨question_id, "Question text too short (< 10 chars)", "warning"⟩]
        else if 300 < question_text.length then
          [⟨question_id, questionTooLongMsg question_text.length, "warning"⟩]
        else []
      let options := [pyStrip r.optionA, pyStrip r.optionB, pyStrip r.optionC, pyStrip r.optionD]
      let e_opt : List ValidationError :=
        (if "" ∈ options then
           [⟨question_id, "Missing one or more options (need exactly 4)", "error"⟩]
         else []) ++
        (if options.Nodup then []
         else [⟨question_id, "Duplicate options detected", "warning"⟩])
      let correct_answer := pyUpper (pyStrip r.correctAnswer)
      let e_ans : List ValidationError :=
        if correct_answer ∈ ["A", "B", "C", "D"] then []
        else [⟨question_id, invalidAnswerMsg correct_answer, "error"⟩]
      let correct_index := answerIndex correct_answer
      let explanation := pyStrip r.explanation
      let e_exp : List ValidationError :=
        if explanation = "" then [⟨question_id, "Empty explanation", "error"⟩]
        else if explanation.length < 20 then
          [⟨question_id, explanationTooShortMsg explanation.length, "warning"⟩]
        else if 500 < explanation.length then
          [⟨question_id, explanationTooLongMsg explanation.length, "warning"⟩]
        else []
      let question : Question :=
        { id := question_id
          text := question_text
          options := options
          correctAnswer := correct_index
          explanation := explanation
          category := category
          difficulty := difficulty
          imageURL := if pyStrip r.imageURL = "" then none else some (pyStrip r.imageURL) }
      { questions := s.questions ++ [question]
        errors := s.errors ++ e_cat ++ e_diff ++ e_q ++ e_opt ++ e_ans ++ e_exp
        seen := s.seen ++ [question_id] }

/-- The row loop: fold `processRow` over the rows, numbering from `n`. -/
def runRows : VState → Nat → List RawRow → VState
  | s, _, [] => s
  | s, n, r :: rest => runRows (processRow s n r) (n + 1) rest

/-- `validate_questions` on an already-parsed row list (source lines 45-161):
returns the question list and the finding list. -/
def validate_questions (rows : List RawRow) : List Question × List ValidationError :=
  let s := runRows ⟨[], [], []⟩ 1 rows
  (s.questions, s.errors)

/-- `any(e.severity == 'error' for e in errors)` (source line 352), the
run-level verdict that blocks document generation. -/
def has_errors (errors : List ValidationError) : Bool :=
  errors.any (fun e => e.severity == "error")

/-- `Counter(q['category'])` lookup: how many accepted questions carry the
category `c`. -/
def catCount (qs : List Question) (c : String) : Nat :=
  (qs.filter (fun q => q.category == c)).length

/-- `Counter(q['difficulty'])` lookup. -/
def diffCount (qs : List Question) (d : String) : Nat :=
  (qs.filter (fun q => q.difficulty == d)).length

/-- `(count / len(questions) * 100) if questions else 0` (source line 185).
Python computes in binary floating point; this model uses exact rational
arithmetic, which agrees on the comparison against 20 except for values
that binary floats cannot represent exactly at the boundary. -/
def pct (count total : Nat) : Rat :=
  if total = 0 then 0 else (count : Rat) / (total : Rat) * 100

/-- Python `format(x, '.1f')` for a non-negative rational: one decimal
digit, ties rounded to even. -/
def fmt1 (x : Rat) : String :=
  let t := x * 10
  let n : Int := Rat.floor t
  let frac := t - (n : Rat)
  let r : Int :=
    if frac > 1 / 2 then n + 1
    else if frac < 1 / 2 then n
    else if n % 2 = 0 then n else n + 1
  let m := r.toNat
  toString (m / 10) ++ "." ++ toString (m % 10)

/-- Message of the low-category-count warning (source lines 176-180). -/
def catWarnMsg (c : String) (count : Nat) : String :=
  "Category \x27" ++ c ++ "\x27 has only " ++ toString count ++
    " questions (minimum 3 recommended)"

/-- Message of the low-difficulty-share info finding (source lines 187-191). -/
def diffInfoMsg (d : String) (x : Rat) : String :=
  "Only " ++ fmt1 x ++ "% of questions are \x27" ++ d ++
    "\x27 (recommend at least 20%)"

/-- `check_distribution` (source lines 163-193): a warning for each category
with fewer than 3 questions, then an info finding for each difficulty whose
percentage share is below 20.  The source iterates the two Python sets; this
model iterates them in the order the literals are written (the finding set
does not depend on the order). -/
def check_distribution (qs : List Question) : List ValidationError :=
  let catErrors := VALID_CATEGORIES.foldl (fun acc category =>
    let count := catCount qs category
    if count < 3 then
      acc ++ [⟨"DISTRIBUTION", catWarnMsg category count, "warning"⟩]
    else acc) []
  let diffErrors := VALID_DIFFICULTIES.foldl (fun acc difficulty =>
    let percentage := pct (diffCount qs difficulty) qs.length
    if percentage < 20 then
      acc ++ [⟨"DISTRIBUTION", diffInfoMsg difficulty percentage, "info"⟩]
    else acc) []
  catErrors ++ diffErrors

/-- A conditional-append fold is a filter-then-map. -/
lemma foldl_append_if_eq_filter_map {α β : Type} (p : α → Prop) [DecidablePred p]
    (g : α → β) (l : List α) (init : List β) :
    l.foldl (fun acc a => if p a then acc ++ [g a] else acc) init =
      init ++ (l.filter (fun a => decide (p a))).map g := by
  induction l generalizing init with
  | nil => simp
  | cons a l ih =>
    simp only [List.foldl_cons, List.filter_cons]
    by_cases h : p a
    · simp [h, ih]
    · simp [h, ih]

/-- The fixed per-category target distribution of
`generate_balanced_mock_test` (source lines 205-220), in definition order. -/
def target_distribution : List (String × Nat) :=
  [("roadAndTrafficSigns", 8), ("rulesOfTheRoad", 6), ("hazardAwareness", 6),
   ("safetyAndYourVehicle", 5), ("motorwayRules", 5), ("vehicleHandling", 5),
   ("vulnerableRoadUsers", 5), ("safetyMargins", 4), ("attitudeToOtherRoadUsers", 3),
   ("alertness", 2), ("otherTypesOfVehicle", 2), ("essentialDocuments", 2),
   ("incidents", 2), ("vehicleLoading", 1)]

/-- `by_category` grouping of `generate_balanced_mock_test` (source lines
199-202): the accepted questions carrying category `c`, in input order. -/
def byCategory (qs : List Question) (c : String) : List Question :=
  qs.filter (fun q => q.category == c)

/-- One step of the category-selection loop (source lines 224-231): if the
category has at least `target_count` available questions, sample that many
without replacement, otherwise take all of them.  The random
`random.sample` is abstracted as the `sample` parameter. -/
def pickForCategory (sample : List Question → Nat → List Question)
    (qs : List Question) (p : String × Nat) : List Question :=
  let available := byCategory qs p.1
  if p.2 ≤ available.length then sample available p.2 else available

/-- The selection after the category loop: the per-category picks
concatenated in table-definition order (the loop `selected.extend(...)`). -/
def initialSelection (sample : List Question → Nat → List Question)
    (qs : List Question) : List Question :=
  target_distribution.flatMap (pickForCategory sample qs)

/-- The fill-in while loop (source lines 233-239): while the selection is
smaller than both the requested total and the whole pool, append a random
not-yet-selected question (membership by value equality).  `random.choice`
is abstracted as the `choice` parameter. -/
def fillLoop (choice : List Question → Question) (questions : List Question)
    (num_questions : Nat) (selected : List Question) : List Question :=
  if _h : selected.length < num_questions ∧ selected.length < questions.length then
    let remaining := questions.filter (fun q => decide (q ∉ selected))
    if remaining = [] then selected
    else fillLoop choice questions num_questions (selected ++ [choice remaining])
  else selected
termination_by num_questions - selected.length
decreasing_by
  simp only [List.length_append, List.length_cons, List.length_nil]
  omega

/-- `generate_balanced_mock_test` (source lines 195-244) with the three
random primitives (`random.sample`, `random.choice`, `random.shuffle`)
abstracted as parameters: category-targeted selection, fill-in loop, final
shuffle, and truncation to the requested total. -/
def generate_balanced_mock_test (sample : List Question → Nat → List Question)
    (choice : List Question → Question) (shuffle : List Question → List Question)
    (questions : List Question) (num_questions : Nat := 50) : List Question :=
  let selected := initialSelection sample questions
  let filled := fillLoop choice questions num_questions selected
  (shuffle filled).take num_questions

/-- A non-Ready row leaves the state unchanged. -/
lemma processRow_not_ready (s : VState) (n : Nat) (r : RawRow)
    (h : pyStrip r.status ≠ "Ready") : processRow s n r = s := by
  simp [processRow, h]

/-- A Ready row with an empty trimmed id only appends the "Missing ID"
error. -/
lemma processRow_missing_id (s : VState) (n : Nat) (r : RawRow)
    (h1 : pyStrip r.status = "Ready") (h2 : pyStrip r.id = "") :
    processRow s n r =
      { s with errors := s.errors ++
          [⟨"Row " ++ toString n, "Missing ID", "error"⟩] } := by
  simp [processRow, h1, h2]

/-- A Ready row whose id has already been seen only appends the
"Duplicate ID" error. -/
lemma processRow_dup (s : VState) (n : Nat) (r : RawRow)
    (h1 : pyStrip r.status = "Ready") (h2 : pyStrip r.id ≠ "")
    (h3 : pyStrip r.id ∈ s.seen) :
    processRow s n r =
      { s with errors := s.errors ++ [⟨pyStrip r.id, "Duplicate ID", "error"⟩] } := by
  simp [processRow, h1, h2, h3]

/-- A Ready row with a fresh non-empty id appends the built question, the
row's findings, and its id. -/
lemma processRow_ready (s : VState) (n : Nat) (r : RawRow)
    (h1 : pyStrip r.status = "Ready") (h2 : pyStrip r.id ≠ "")
    (h3 : pyStrip r.id ∉ s.seen) :
    processRow s n r =
      ⟨s.questions ++ [buildQuestion r], s.errors ++ rowFindings r,
       s.seen ++ [pyStrip r.id]⟩ := by
  simp only [processRow, rowFindings, categoryFindings, difficultyFindings,
    questionTextFindings, optionsFindings, answerFindings, explanationFindings,
    buildQuestion, h1, h2, h3]
  simp [h1, h2, h3, List.append_assoc]

/-- Processing one row never removes an id from the seen set. -/
lemma seen_subset_processRow (s : VState) (n : Nat) (r : RawRow) :
    s.seen ⊆ (processRow s n r).seen := by
  by_cases hs : pyStrip r.status = "Ready"
  · by_cases hid : pyStrip r.id = ""
    · rw [processRow_missing_id s n r hs hid]
      exact fun x hx => hx
    · by_cases hseen : pyStrip r.id ∈ s.seen
      · rw [processRow_dup s n r hs hid hseen]
        exact fun x hx => hx
      · rw [processRow_ready s n r hs hid hseen]
        exact List.subset_append_left _ _
  · rw [processRow_not_ready s n r hs]
    exact fun x hx => hx

/-- Running the loop never removes an id from the seen set. -/
lemma seen_subset_runRows (s : VState) (n : Nat) (rows : List RawRow) :
    s.seen ⊆ (runRows s n rows).seen := by
  induction rows generalizing s n with
  | nil => exact fun x hx => hx
  | cons r rest ih =>
    exact fun x hx => ih (processRow s n r) (n + 1) (seen_subset_processRow s n r hx)

/-- After processing a Ready row with a non-empty trimmed id, that id is in
the seen set, whether or not the row was itself a duplicate. -/
lemma id_mem_seen_processRow (s : VState) (n : Nat) (r : RawRow)
    (h1 : pyStrip r.status = "Ready") (h2 : pyStrip r.id ≠ "") :
    pyStrip r.id ∈ (processRow s n r).seen := by
  by_cases h3 : pyStrip r.id ∈ s.seen
  · rw [processRow_dup s n r h1 h2 h3]; exact h3
  · rw [processRow_ready s n r h1 h2 h3]; simp

/-- Any Ready row with a non-empty trimmed id occurring in the row list
leaves its id in the seen set at the end of the loop. -/
lemma id_mem_seen_runRows (s : VState) (n : Nat) (rows : List RawRow)
    (r1 : RawRow) (hmem : r1 ∈ rows) (h1 : pyStrip r1.status = "Ready")
    (h2 : pyStrip r1.id ≠ "") :
    pyStrip r1.id ∈ (runRows s n rows).seen := by
  induction rows generalizing s n with
  | nil => cases hmem
  | cons r rest ih =>
    rcases List.mem_cons.mp hmem with h | h
    · subst h
      exact seen_subset_runRows (processRow s n r1) (n + 1) rest
        (id_mem_seen_processRow s n r1 h1 h2)
    · exact ih (processRow s n r) (n + 1) h

/-- Splitting the loop over an appended row list. -/
lemma runRows_append (s : VState) (n : Nat) (l1 l2 : List RawRow) :
    runRows s n (l1 ++ l2) = runRows (runRows s n l1) (n + l1.length) l2 := by
  induction l1 generalizing s n with
  | nil => simp [runRows]
  | cons r rest ih =>
    show runRows (processRow s n r) (n + 1) (rest ++ l2) =
      runRows (runRows (processRow s n r) (n + 1) rest) (n + (r :: rest).length) l2
    rw [ih]
    have h : n + (r :: rest).length = n + 1 + rest.length := by
      simp only [List.length_cons]
      omega
    rw [h]

section ClaimRows

/-- C1's row: everything valid except `Correct_Answer = "E"`. -/
def c1row : RawRow :=
  ⟨"Ready", "Q1", "alertness", "easy", "Is this a test question?",
   "One", "Two", "Three", "Four", "E", "This explains the answer.", ""⟩

/-- C3's counterexample row: Ready, empty ID, and an invalid category. -/
def c3row : RawRow :=
  ⟨"Ready", "", "notACategory", "easy", "Is this a test question?",
   "One", "Two", "Three", "Four", "A", "This explains the answer.", ""⟩

/-- C3's witness row: Ready with a fresh id, violating every field rule at
once (invalid category and difficulty, empty question text, a missing and a
duplicated option, invalid correct answer, empty explanation). -/
def c3badRow : RawRow :=
  ⟨"Ready", "Q9", "nope", "extreme", "", "", "x", "x", "y", "E", "", ""⟩

/-- C5's witness row: a draft row. -/
def c5row : RawRow :=
  ⟨"Draft", "Q1", "alertness", "easy", "Is this a test question?",
   "One", "Two", "Three", "Four", "A", "This explains the answer.", ""⟩

/-- C10's first witness row: invalid category, so it is never a valid
question, but its id still enters the seen set. -/
def c10r1 : RawRow :=
  ⟨"Ready", "QX", "badCat", "easy", "Is this a test question?",
   "One", "Two", "Three", "Four", "A", "This explains the answer.", ""⟩

/-- C10's second witness row: fully valid but reusing the id "QX". -/
def c10r2 : RawRow :=
  ⟨"Ready", "QX", "alertness", "easy", "Is this a test question?",
   "One", "Two", "Three", "Four", "A", "This explains the answer.", ""⟩

end ClaimRows

/-- C1, counterexample: a Ready row that is valid except for
`Correct_Answer = "E"` produces exactly one error finding, yet its Question
still appears in the question list returned by `validate_questions` — the
returned list is not filtered by error-severity findings. -/
theorem c1_counterexample :
    (validate_questions [c1row]).2 = [⟨"Q1", invalidAnswerMsg "E", "error"⟩] ∧
    (validate_questions [c1row]).1 =
      [{ id := "Q1", text := "Is this a test question?",
         options := ["One", "Two", "Three", "Four"], correctAnswer := 0,
         explanation := "This explains the answer.", category := "alertness",
         difficulty := "easy", imageURL := none }] := by decide

/-- C1, amended, covering every Ready row: a row failing the ID checks
(empty trimmed ID, or an ID already seen) yields exactly one error finding
("Missing ID" / "Duplicate ID") and contributes no Question — there the
original claim holds; a Ready row with a fresh non-empty ID is never
excluded by its error findings: its Question still appears in the question
list returned by `validate_questions`, alongside all the row's findings.
In every case an error-severity finding makes the run-level `has_errors`
verdict true, so downstream document generation is blocked. -/
theorem c1_error_findings_vs_accepted_list (s : VState) (n : Nat) (r : RawRow)
    (h1 : pyStrip r.status = "Ready") :
    (pyStrip r.id = "" →
      processRow s n r =
        { s with errors := s.errors ++
            [⟨"Row " ++ toString n, "Missing ID", "error"⟩] }) ∧
    (pyStrip r.id ≠ "" → pyStrip r.id ∈ s.seen →
      processRow s n r =
        { s with errors := s.errors ++
            [⟨pyStrip r.id, "Duplicate ID", "error"⟩] }) ∧
    (pyStrip r.id ≠ "" → pyStrip r.id ∉ s.seen →
      (processRow s n r).questions = s.questions ++ [buildQuestion r] ∧
      (processRow s n r).errors = s.errors ++ rowFindings r) ∧
    (∀ f ∈ (processRow s n r).errors, f.severity = "error" →
      has_errors (processRow s n r).errors = true) := by
  refine ⟨fun h2 => processRow_missing_id s n r h1 h2,
    fun h2 h3 => processRow_dup s n r h1 h2 h3,
    fun h2 h3 => ?_, fun f hf hsev => ?_⟩
  · rw [processRow_ready s n r h1 h2 h3]
    exact ⟨rfl, rfl⟩
  · simp only [has_errors, List.any_eq_true]
    exact ⟨f, hf, by simp [hsev]⟩

/-- C1's second witness row: valid except for its empty ID, so its only
error finding is "Missing ID" and it contributes no Question. -/
def c1rowNoId : RawRow :=
  ⟨"Ready", "", "alertness", "easy", "Is this a test question?",
   "One", "Two", "Three", "Four", "A", "This explains the answer.", ""⟩

/-- C1, witness for the amended theorem: the `Correct_Answer = "E"` row
keeps its Question in the list while its error finding fails the run, and
the empty-ID row contributes no Question. -/
theorem c1_witness :
    (processRow ⟨[], [], []⟩ 1 c1row).questions = [buildQuestion c1row] ∧
    (⟨"Q1", invalidAnswerMsg "E", "error"⟩ : ValidationError) ∈
      (processRow ⟨[], [], []⟩ 1 c1row).errors ∧
    has_errors (processRow ⟨[], [], []⟩ 1 c1row).errors = true ∧
    processRow ⟨[], [], []⟩ 1 c1rowNoId =
      { questions := [], errors := [⟨"Row 1", "Missing ID", "error"⟩],
        seen := [] } := by
  have h := c1_error_findings_vs_accepted_list ⟨[], [], []⟩ 1 c1row (by decide)
  have hno := c1_error_findings_vs_accepted_list ⟨[], [], []⟩ 1 c1rowNoId
    (by decide)
  have hmem : (⟨"Q1", invalidAnswerMsg "E", "error"⟩ : ValidationError) ∈
      (processRow ⟨[], [], []⟩ 1 c1row).errors := by
    rw [(h.2.2.1 (by decide) (by decide)).2]
    decide
  exact ⟨(h.2.2.1 (by decide) (by decide)).1, hmem,
    h.2.2.2 _ hmem rfl, hno.1 (by decide)⟩

/-- C2, counterexample: the 14 per-category targets of the mock sampler do
not sum to 49. -/
theorem c2_counterexample : ¬ (target_distribution.map Prod.snd).sum = 49 := by
  decide

/-- C2, amended: the mock sampler's fixed target distribution consists of 14
category-count pairs whose counts sum to 56. -/
theorem c2_fourteen_pairs_sum_56 :
    target_distribution.length = 14 ∧
    (target_distribution.map Prod.snd).sum = 56 := by decide

/-- C3, counterexample: a Ready row with an empty ID and an invalid category
reports only the "Missing ID" finding — the category rule (and every other
field rule) is not evaluated for that row, contradicting the claim that every
rule is still evaluated after an earlier rule produced a finding. -/
theorem c3_counterexample :
    (validate_questions [c3row]).2 = [⟨"Row 1", "Missing ID", "error"⟩] ∧
    pyStrip c3row.category ∉ VALID_CATEGORIES := by decide

/-- C3, amended: for every Ready row that passes the ID checks (non-empty,
not yet seen), all remaining field rules — category, difficulty, question
text, options, correct answer, explanation — are evaluated independently:
the row's findings are exactly the concatenation of the findings of each
rule evaluated on its own, so one row can report several independent
errors and warnings in one pass.  (A Ready row failing the ID or
duplicate-ID check short-circuits instead, reporting only that finding.) -/
theorem c3_all_field_rules_evaluated (s : VState) (n : Nat) (r : RawRow)
    (h1 : pyStrip r.status = "Ready") (h2 : pyStrip r.id ≠ "")
    (h3 : pyStrip r.id ∉ s.seen) :
    (processRow s n r).errors =
      s.errors ++
        (categoryFindings (pyStrip r.id) r.category ++
         difficultyFindings (pyStrip r.id) r.difficulty ++
         questionTextFindings (pyStrip r.id) r.question ++
         optionsFindings (pyStrip r.id) r.optionA r.optionB r.optionC r.optionD ++
         answerFindings (pyStrip r.id) r.correctAnswer ++
         explanationFindings (pyStrip r.id) r.explanation) := by
  rw [processRow_ready s n r h1 h2 h3]
  simp [rowFindings]

/-- C3, witness: a row violating every field rule reports all seven findings
(one per category/difficulty/question/answer/explanation rule, two for the
options rules) in one pass. -/
theorem c3_witness :
    (processRow ⟨[], [], []⟩ 1 c3badRow).errors =
      [] ++
        (categoryFindings "Q9" c3badRow.category ++
         difficultyFindings "Q9" c3badRow.difficulty ++
         questionTextFindings "Q9" c3badRow.question ++
         optionsFindings "Q9" c3badRow.optionA c3badRow.optionB c3badRow.optionC c3badRow.optionD ++
         answerFindings "Q9" c3badRow.correctAnswer ++
         explanationFindings "Q9" c3badRow.explanation) ∧
    (processRow ⟨[], [], []⟩ 1 c3badRow).errors.length = 7 :=
  ⟨c3_all_field_rules_evaluated ⟨[], [], []⟩ 1 c3badRow (by decide) (by decide)
    (by decide), by decide⟩

/-- C5: a row whose trimmed Status is not exactly "Ready" is skipped
entirely: it produces no findings and contributes no Question — the
validation state is unchanged. -/
theorem c5_non_ready_row_skipped (s : VState) (n : Nat) (r : RawRow)
    (h : pyStrip r.status ≠ "Ready") : processRow s n r = s := by
  simp [processRow, h]

/-- C5, witness at a concrete draft row. -/
theorem c5_witness :
    processRow ⟨[], [], []⟩ 1 c5row = (⟨[], [], []⟩ : VState) :=
  c5_non_ready_row_skipped ⟨[], [], []⟩ 1 c5row (by decide)

/-- C10: processing a Ready row with a non-empty trimmed id records the id
in the seen set no matter what its other fields contain (in particular even
when the row produces error findings and is never a valid question), so a
later Ready row reusing the id is rejected with exactly one "Duplicate ID"
error and contributes no Question. -/
theorem c10_id_recorded_before_field_checks (s : VState) (n1 n2 : Nat)
    (r1 r2 : RawRow) (h1 : pyStrip r1.status = "Ready")
    (h2 : pyStrip r2.status = "Ready") (hid : pyStrip r1.id ≠ "")
    (heq : pyStrip r2.id = pyStrip r1.id) :
    pyStrip r1.id ∈ (processRow s n1 r1).seen ∧
    processRow (processRow s n1 r1) n2 r2 =
      { processRow s n1 r1 with
        errors := (processRow s n1 r1).errors ++
          [⟨pyStrip r1.id, "Duplicate ID", "error"⟩] } := by
  have hmem := id_mem_seen_processRow s n1 r1 h1 hid
  refine ⟨hmem, ?_⟩
  have hdup := processRow_dup (processRow s n1 r1) n2 r2 h2
    (by rw [heq]; exact hid) (by rw [heq]; exact hmem)
  rw [hdup, heq]

/-- C4's row: a fully valid Ready row with id "Q1"; used twice, so the
second occurrence is a duplicate. -/
def c4row : RawRow :=
  ⟨"Ready", "Q1", "alertness", "easy", "Is this a test question?",
   "One", "Two", "Three", "Four", "A", "This explains the answer.", ""⟩

/-- C4: if some Ready row of `l` carries the same non-empty trimmed ID as
the Ready row `r2`, then appending `r2` to the input adds exactly one
finding — the error-severity "Duplicate ID" — and no Question, whatever
the other fields of `r2` contain. -/
theorem c4_duplicate_id_rejected (l : List RawRow) (r2 : RawRow)
    (h2s : pyStrip r2.status = "Ready") (h2id : pyStrip r2.id ≠ "")
    (hdup : ∃ r1 ∈ l, pyStrip r1.status = "Ready" ∧
      pyStrip r1.id = pyStrip r2.id) :
    (validate_questions (l ++ [r2])).1 = (validate_questions l).1 ∧
    (validate_questions (l ++ [r2])).2 =
      (validate_questions l).2 ++ [⟨pyStrip r2.id, "Duplicate ID", "error"⟩] := by
  obtain ⟨r1, hmem, h1s, h1id⟩ := hdup
  have hid1 : pyStrip r1.id ≠ "" := by rw [h1id]; exact h2id
  have hseen : pyStrip r2.id ∈ (runRows ⟨[], [], []⟩ 1 l).seen := by
    rw [← h1id]
    exact id_mem_seen_runRows ⟨[], [], []⟩ 1 l r1 hmem h1s hid1
  have hsplit : runRows ⟨[], [], []⟩ 1 (l ++ [r2]) =
      processRow (runRows ⟨[], [], []⟩ 1 l) (1 + l.length) r2 := by
    rw [runRows_append]
    simp only [runRows]
  unfold validate_questions
  rw [hsplit, processRow_dup _ _ r2 h2s h2id hseen]
  exact ⟨rfl, rfl⟩

/-- C4, witness: the same valid row twice; the run yields one question and
exactly the single "Duplicate ID" error. -/
theorem c4_witness :
    ((validate_questions ([c4row] ++ [c4row])).1 = (validate_questions [c4row]).1 ∧
     (validate_questions ([c4row] ++ [c4row])).2 =
       (validate_questions [c4row]).2 ++
         [⟨pyStrip c4row.id, "Duplicate ID", "error"⟩]) ∧
    (validate_questions [c4row, c4row]).2 = [⟨"Q1", "Duplicate ID", "error"⟩] ∧
    (validate_questions [c4row, c4row]).1.length = 1 :=
  ⟨c4_duplicate_id_rejected [c4row] c4row (by decide) (by decide)
      ⟨c4row, List.mem_singleton.mpr rfl, by decide, rfl⟩,
   by decide, by decide⟩

/-- C6's counterexample row: valid except for an empty explanation. -/
def c6row : RawRow :=
  ⟨"Ready", "Q1", "alertness", "easy", "Is this a test question?",
   "One", "Two", "Three", "Four", "A", "", ""⟩

/-- A string of `n` copies of the letter a. -/
def strA (n : Nat) : String := ⟨List.replicate n 'a'⟩

/-- C6, counterexample: a trimmed explanation of length 0 is below 20, yet
the row's only finding is the error "Empty explanation" — no "too short"
warning is produced, so "length below 20 produces a too-short warning" fails
at the empty explanation. -/
theorem c6_counterexample :
    (pyStrip c6row.explanation).length < 20 ∧
    (validate_questions [c6row]).2 = [⟨"Q1", "Empty explanation", "error"⟩] := by
  decide

/-- C6, amended: the boundary behaviour of the question-text and explanation
length rules: trimmed question text of length exactly 10 or 300 produces no
warning, length 9 a "too short" warning, length 301 a "too long" warning
including the actual length; trimmed explanation of length exactly 20 or 500
produces no warning, length below 20 — provided it is nonzero, since the
empty explanation is an error instead — a "too short" warning, and length
above 500 a "too long" warning, both including the actual length. -/
theorem c6_length_boundaries (qid q e : String) :
    ((pyStrip q).length = 10 → questionTextFindings qid q = []) ∧
    ((pyStrip q).length = 300 → questionTextFindings qid q = []) ∧
    ((pyStrip q).length = 9 → questionTextFindings qid q =
      [⟨qid, "Question text too short (< 10 chars)", "warning"⟩]) ∧
    ((pyStrip q).length = 301 → questionTextFindings qid q =
      [⟨qid, questionTooLongMsg 301, "warning"⟩]) ∧
    ((pyStrip e).length = 20 → explanationFindings qid e = []) ∧
    ((pyStrip e).length = 500 → explanationFindings qid e = []) ∧
    (1 ≤ (pyStrip e).length → (pyStrip e).length < 20 →
      explanationFindings qid e =
        [⟨qid, explanationTooShortMsg (pyStrip e).length, "warning"⟩]) ∧
    (500 < (pyStrip e).length → explanationFindings qid e =
      [⟨qid, explanationTooLongMsg (pyStrip e).length, "warning"⟩]) := by
  have h00 : ("" : String).length = 0 := by decide
  have hq : ∀ n : Nat, (pyStrip q).length = n → 1 ≤ n → pyStrip q ≠ "" := by
    intro n hn h1 h0
    rw [h0, h00] at hn
    omega
  have he : ∀ n : Nat, (pyStrip e).length = n → 1 ≤ n → pyStrip e ≠ "" := by
    intro n hn h1 h0
    rw [h0, h00] at hn
    omega
  refine ⟨?_, ?_, ?_, ?_, ?_, ?_, ?_, ?_⟩
  · intro h
    simp [questionTextFindings, hq 10 h (by omega), h]
  · intro h
    simp [questionTextFindings, hq 300 h (by omega), h]
  · intro h
    simp [questionTextFindings, hq 9 h (by omega), h]
  · intro h
    simp [questionTextFindings, hq 301 h (by omega), h]
  · intro h
    simp [explanationFindings, he 20 h (by omega), h]
  · intro h
    simp [explanationFindings, he 500 h (by omega), h]
  · intro h1 h2
    have hne : pyStrip e ≠ "" := by
      intro h0
      rw [h0, h00] at h1
      omega
    simp [explanationFindings, hne, h2]
  · intro h
    have hne : pyStrip e ≠ "" := by
      intro h0
      rw [h0, h00] at h
      omega
    have h20 : ¬ (pyStrip e).length < 20 := by omega
    simp [explanationFindings, hne, h20, h]

/-- C6, witness: all eight boundary cases at concrete strings of the
respective lengths. -/
theorem c6_witness :
    questionTextFindings "Q1" (strA 10) = [] ∧
    questionTextFindings "Q1" (strA 300) = [] ∧
    questionTextFindings "Q1" (strA 9) =
      [⟨"Q1", "Question text too short (< 10 chars)", "warning"⟩] ∧
    questionTextFindings "Q1" (strA 301) =
      [⟨"Q1", questionTooLongMsg 301, "warning"⟩] ∧
    explanationFindings "Q1" (strA 20) = [] ∧
    explanationFindings "Q1" (strA 500) = [] ∧
    explanationFindings "Q1" (strA 5) =
      [⟨"Q1", explanationTooShortMsg 5, "warning"⟩] ∧
    explanationFindings "Q1" (strA 501) =
      [⟨"Q1", explanationTooLongMsg 501, "warning"⟩] := by
  refine ⟨(c6_length_boundaries "Q1" (strA 10) "").1 (by decide),
    (c6_length_boundaries "Q1" (strA 300) "").2.1 (by decide),
    (c6_length_boundaries "Q1" (strA 9) "").2.2.1 (by decide),
    (c6_length_boundaries "Q1" (strA 301) "").2.2.2.1 (by decide),
    (c6_length_boundaries "Q1" "" (strA 20)).2.2.2.2.1 (by decide),
    (c6_length_boundaries "Q1" "" (strA 500)).2.2.2.2.2.1 (by decide),
    ?_, ?_⟩
  · have h := (c6_length_boundaries "Q1" "" (strA 5)).2.2.2.2.2.2.1
      (by decide) (by decide)
    rw [h]
    decide
  · have h := (c6_length_boundaries "Q1" "" (strA 501)).2.2.2.2.2.2.2 (by decide)
    rw [h]
    decide

/-- C8's concrete scenario row from the specification. -/
def c8row (qt a b c d ex : String) : RawRow :=
  ⟨"Ready", "Q1", "alertness", "Easy", qt, a, b, c, d, "b", ex, ""⟩

/-- C8: one Ready row with ID "Q1", category "alertness", difficulty "Easy",
a question text whose trimmed length is at least 10, four pairwise-distinct
non-empty (trimmed) options, correct answer "b", a trimmed explanation of 25
characters and an empty image URL validates with zero error-severity
findings, and the accepted set is exactly one Question with id "Q1",
correctAnswerIndex 1, difficulty "easy" and no image URL. -/
theorem c8_valid_row_accepted (qt a b c d ex : String)
    (hqt : 10 ≤ (pyStrip qt).length)
    (hopt : ("" : String) ∉ [pyStrip a, pyStrip b, pyStrip c, pyStrip d])
    (hnd : List.Nodup [pyStrip a, pyStrip b, pyStrip c, pyStrip d])
    (hex : (pyStrip ex).length = 25) :
    has_errors (validate_questions [c8row qt a b c d ex]).2 = false ∧
    (validate_questions [c8row qt a b c d ex]).1 =
      [{ id := "Q1", text := pyStrip qt,
         options := [pyStrip a, pyStrip b, pyStrip c, pyStrip d],
         correctAnswer := 1, explanation := pyStrip ex,
         category := "alertness", difficulty := "easy", imageURL := none }] := by
  have h00 : ("" : String).length = 0 := by decide
  have hqne : pyStrip qt ≠ "" := by
    intro h0
    rw [h0, h00] at hqt
    omega
  have hexne : pyStrip ex ≠ "" := by
    intro h0
    rw [h0, h00] at hex
    omega
  have hready := processRow_ready ⟨[], [], []⟩ 1 (c8row qt a b c d ex)
    (show pyStrip "Ready" = "Ready" by decide)
    (show pyStrip "Q1" ≠ "" by decide) (by simp)
  have hval : validate_questions [c8row qt a b c d ex] =
      ([] ++ [buildQuestion (c8row qt a b c d ex)],
       [] ++ rowFindings (c8row qt a b c d ex)) := by
    unfold validate_questions
    rw [show runRows ⟨[], [], []⟩ 1 [c8row qt a b c d ex] =
      processRow ⟨[], [], []⟩ 1 (c8row qt a b c d ex) from rfl, hready]
  have hfind : rowFindings (c8row qt a b c d ex) =
      questionTextFindings "Q1" qt := by
    show (categoryFindings (pyStrip "Q1") "alertness" ++
      difficultyFindings (pyStrip "Q1") "Easy" ++
      questionTextFindings (pyStrip "Q1") qt ++
      optionsFindings (pyStrip "Q1") a b c d ++
      answerFindings (pyStrip "Q1") "b" ++
      explanationFindings (pyStrip "Q1") ex) = questionTextFindings "Q1" qt
    have h1 : categoryFindings (pyStrip "Q1") "alertness" = [] := by decide
    have h2 : difficultyFindings (pyStrip "Q1") "Easy" = [] := by decide
    have h3 : optionsFindings (pyStrip "Q1") a b c d = [] := by
      simp [optionsFindings, hopt, hnd]
    have h4 : answerFindings (pyStrip "Q1") "b" = [] := by decide
    have h5 : explanationFindings (pyStrip "Q1") ex = [] := by
      have h20 : ¬ (pyStrip ex).length < 20 := by omega
      have h500 : ¬ 500 < (pyStrip ex).length := by omega
      simp [explanationFindings, hexne, h20, h500]
    have h6 : pyStrip "Q1" = "Q1" := by decide
    rw [h1, h2, h3, h4, h5, h6]
    simp
  have hwarn : has_errors (questionTextFindings "Q1" qt) = false := by
    unfold questionTextFindings has_errors
    rw [if_neg hqne, if_neg (show ¬ (pyStrip qt).length < 10 by omega)]
    by_cases h300 : 300 < (pyStrip qt).length
    · rw [if_pos h300]
      rfl
    · rw [if_neg h300]
      rfl
  have e1 : pyStrip "Q1" = "Q1" := by decide
  have e2 : answerIndex (pyUpper (pyStrip "b")) = 1 := by decide
  have e3 : pyStrip "alertness" = "alertness" := by decide
  have e4 : pyLower (pyStrip "Easy") = "easy" := by decide
  have e5 : pyStrip "" = "" := by decide
  have hbuild : buildQuestion (c8row qt a b c d ex) =
      { id := "Q1", text := pyStrip qt,
        options := [pyStrip a, pyStrip b, pyStrip c, pyStrip d],
        correctAnswer := 1, explanation := pyStrip ex,
        category := "alertness", difficulty := "easy", imageURL := none } := by
    simp [buildQuestion, c8row, e1, e2, e3, e4, e5]
  rw [hval]
  simp only [List.nil_append]
  rw [hfind, hbuild]
  exact ⟨hwarn, rfl⟩

/-- C8, witness at the specification's concrete scenario values. -/
theorem c8_witness :
    has_errors (validate_questions
      [c8row "Is this a test question?" "One" "Two" "Three" "Four"
        "This explains the answer."]).2 = false ∧
    (validate_questions
      [c8row "Is this a test question?" "One" "Two" "Three" "Four"
        "This explains the answer."]).1 =
      [{ id := "Q1", text := pyStrip "Is this a test question?",
         options := [pyStrip "One", pyStrip "Two", pyStrip "Three", pyStrip "Four"],
         correctAnswer := 1, explanation := pyStrip "This explains the answer.",
         category := "alertness", difficulty := "easy", imageURL := none }] :=
  c8_valid_row_accepted "Is this a test question?" "One" "Two" "Three" "Four"
    "This explains the answer." (by decide) (by decide) (by decide) (by decide)

/-- C10, witness: the first row has an invalid category (an error finding),
yet the second row with the same id is still rejected as a duplicate. -/
theorem c10_witness :
    pyStrip c10r1.id ∈ (processRow ⟨[], [], []⟩ 1 c10r1).seen ∧
    (processRow (processRow ⟨[], [], []⟩ 1 c10r1) 2 c10r2).errors =
      [⟨"QX", invalidCategoryMsg "badCat", "error"⟩,
       ⟨"QX", "Duplicate ID", "error"⟩] :=
  ⟨(c10_id_recorded_before_field_checks ⟨[], [], []⟩ 1 2 c10r1 c10r2 (by decide)
      (by decide) (by decide) (by decide)).1, by decide⟩

/-- C7: on any accepted question list (possibly empty), the distribution
check produces exactly one warning for each of the 14 categories whose count
is below 3 — naming the category and its actual count — followed by one info
finding for each difficulty whose percentage (0 when the list is empty, to
avoid dividing by zero) is below 20 — reporting the percentage to one
decimal place; every finding has warning or info severity, never error. -/
theorem c7_distribution_only_advisory (qs : List Question) :
    check_distribution qs =
      (VALID_CATEGORIES.filter (fun c => decide (catCount qs c < 3))).map
        (fun c => ⟨"DISTRIBUTION", catWarnMsg c (catCount qs c), "warning"⟩) ++
      (VALID_DIFFICULTIES.filter
          (fun d => decide (pct (diffCount qs d) qs.length < 20))).map
        (fun d => ⟨"DISTRIBUTION",
          diffInfoMsg d (pct (diffCount qs d) qs.length), "info"⟩) ∧
    ∀ f ∈ check_distribution qs, f.severity = "warning" ∨ f.severity = "info" := by
  have heq : check_distribution qs =
      (VALID_CATEGORIES.filter (fun c => decide (catCount qs c < 3))).map
        (fun c => ⟨"DISTRIBUTION", catWarnMsg c (catCount qs c), "warning"⟩) ++
      (VALID_DIFFICULTIES.filter
          (fun d => decide (pct (diffCount qs d) qs.length < 20))).map
        (fun d => ⟨"DISTRIBUTION",
          diffInfoMsg d (pct (diffCount qs d) qs.length), "info"⟩) := by
    simp only [check_distribution]
    rw [foldl_append_if_eq_filter_map (fun c => catCount qs c < 3)
      (fun c => (⟨"DISTRIBUTION", catWarnMsg c (catCount qs c), "warning"⟩ :
        ValidationError)) VALID_CATEGORIES [],
      foldl_append_if_eq_filter_map (fun d => pct (diffCount qs d) qs.length < 20)
      (fun d => (⟨"DISTRIBUTION",
        diffInfoMsg d (pct (diffCount qs d) qs.length), "info"⟩ :
        ValidationError)) VALID_DIFFICULTIES []]
    simp
  refine ⟨heq, ?_⟩
  intro f hf
  rw [heq] at hf
  rcases List.mem_append.mp hf with h | h <;>
    obtain ⟨x, _, hx⟩ := List.mem_map.mp h
  · left
    rw [← hx]
  · right
    rw [← hx]

/-- C7, witness: on the empty accepted list, no finding has error severity
(the run-level verdict is unaffected), the warning naming "incidents" with
count 0 is present, and the info finding for "easy" at percentage 0 is
present. -/
theorem c7_witness :
    has_errors (check_distribution []) = false ∧
    (⟨"DISTRIBUTION", catWarnMsg "incidents" 0, "warning"⟩ : ValidationError) ∈
      check_distribution [] ∧
    (⟨"DISTRIBUTION", diffInfoMsg "easy" (pct 0 0), "info"⟩ : ValidationError) ∈
      check_distribution [] := by
  have h := c7_distribution_only_advisory []
  refine ⟨?_, ?_, ?_⟩
  · unfold has_errors
    rw [List.any_eq_false]
    intro f hf
    rcases h.2 f hf with h1 | h1 <;> simp [beq_iff_eq, h1]
  · rw [h.1]
    apply List.mem_append_left
    apply List.mem_map.mpr
    refine ⟨"incidents", ?_, rfl⟩
    simp [VALID_CATEGORIES, catCount]
  · rw [h.1]
    apply List.mem_append_right
    apply List.mem_map.mpr
    refine ⟨"easy", ?_, rfl⟩
    have h20 : pct (diffCount [] "easy") 0 < 20 := by
      norm_num [pct, diffCount]
    simp [VALID_DIFFICULTIES, h20]

section MockSampler

variable (sample : List Question → Nat → List Question)
variable (choice : List Question → Question)

/-- Everything selected for a category lies in the pool and carries that
category. -/
lemma pickForCategory_mem
    (hsample_mem : ∀ l k, k ≤ l.length → ∀ x ∈ sample l k, x ∈ l)
    (qs : List Question) (p : String × Nat) :
    ∀ x ∈ pickForCategory sample qs p, x ∈ qs ∧ x.category = p.1 := by
  intro x hx
  have hby : ∀ y ∈ byCategory qs p.1, y ∈ qs ∧ y.category = p.1 := by
    intro y hy
    have := List.mem_filter.mp hy
    exact ⟨this.1, by simpa [beq_iff_eq] using this.2⟩
  simp only [pickForCategory] at hx
  split at hx
  · exact hby x (hsample_mem _ _ (by assumption) x hx)
  · exact hby x hx

/-- The selection for one category has no duplicates when the pool has
none. -/
lemma pickForCategory_nodup
    (hsample_nodup : ∀ l k, k ≤ l.length → l.Nodup → (sample l k).Nodup)
    (qs : List Question) (hq : qs.Nodup) (p : String × Nat) :
    (pickForCategory sample qs p).Nodup := by
  have hby : (byCategory qs p.1).Nodup := hq.filter _
  simp only [pickForCategory]
  split
  · exact hsample_nodup _ _ (by assumption) hby
  · exact hby

/-- The category-loop selection stays inside the pool. -/
lemma initialSelection_subset
    (hsample_mem : ∀ l k, k ≤ l.length → ∀ x ∈ sample l k, x ∈ l)
    (qs : List Question) :
    ∀ x ∈ initialSelection sample qs, x ∈ qs := by
  intro x hx
  obtain ⟨p, _, hp⟩ := List.mem_flatMap.mp hx
  exact (pickForCategory_mem sample hsample_mem qs p x hp).1

/-- The category-loop selection has no duplicates: each per-category pick
has none, and picks of distinct categories are disjoint. -/
lemma initialSelection_nodup
    (hsample_mem : ∀ l k, k ≤ l.length → ∀ x ∈ sample l k, x ∈ l)
    (hsample_nodup : ∀ l k, k ≤ l.length → l.Nodup → (sample l k).Nodup)
    (qs : List Question) (hq : qs.Nodup) :
    (initialSelection sample qs).Nodup := by
  unfold initialSelection
  rw [List.nodup_flatMap]
  constructor
  · exact fun p _ => pickForCategory_nodup sample hsample_nodup qs hq p
  · have hkeys : target_distribution.Pairwise (fun p q => p.1 ≠ q.1) := by decide
    refine hkeys.imp ?_
    intro p q hpq
    intro a hap haq
    have h1 := (pickForCategory_mem sample hsample_mem qs p a hap).2
    have h2 := (pickForCategory_mem sample hsample_mem qs q a haq).2
    exact hpq (h1 ▸ h2 ▸ rfl)

/-- Full characterisation of the fill-in loop: it preserves distinctness
and pool membership, and brings the selection size up to the smaller of the
requested total and the pool size (leaving it alone if already beyond). -/
lemma fillLoop_spec (questions : List Question) (num_questions : Nat)
    (hchoice : ∀ l, l ≠ [] → choice l ∈ l) (hq : questions.Nodup) :
    ∀ (k : Nat) (selected : List Question),
      num_questions - selected.length ≤ k → selected.Nodup →
      (∀ x ∈ selected, x ∈ questions) →
      ((fillLoop choice questions num_questions selected).Nodup ∧
       (∀ x ∈ fillLoop choice questions num_questions selected, x ∈ questions) ∧
       (fillLoop choice questions num_questions selected).length =
         max selected.length (min num_questions questions.length)) := by
  intro k
  induction k with
  | zero =>
    intro selected hk hnd hsub
    rw [fillLoop]
    rw [dif_neg (by omega)]
    exact ⟨hnd, hsub, by omega⟩
  | succ k ih =>
    intro selected hk hnd hsub
    rw [fillLoop]
    by_cases hcond : selected.length < num_questions ∧
        selected.length < questions.length
    · rw [dif_pos hcond]
      have hrne : ¬ questions.filter (fun q => decide (q ∉ selected)) = [] := by
        intro hemp
        have hall : ∀ q ∈ questions, q ∈ selected := by
          intro q hq'
          by_contra hq''
          have hmem : q ∈ questions.filter (fun q => decide (q ∉ selected)) :=
            List.mem_filter.mpr ⟨hq', by simpa using hq''⟩
          rw [hemp] at hmem
          cases hmem
        have hle := (List.subperm_of_subset hq hall).length_le
        omega
      rw [if_neg hrne]
      have hcr := hchoice _ hrne
      have hcr' := List.mem_filter.mp hcr
      have hcr_mem : choice (questions.filter (fun q => decide (q ∉ selected))) ∈
          questions := hcr'.1
      have hcr_not : choice (questions.filter (fun q => decide (q ∉ selected))) ∉
          selected := by simpa using hcr'.2
      have hnd' : (selected ++
          [choice (questions.filter (fun q => decide (q ∉ selected)))]).Nodup := by
        rw [List.nodup_append]
        refine ⟨hnd, List.nodup_singleton _, fun a ha hb => ?_⟩
        rw [List.mem_singleton] at hb
        exact hcr_not (hb ▸ ha)
      have hsub' : ∀ x ∈ selected ++
          [choice (questions.filter (fun q => decide (q ∉ selected)))],
          x ∈ questions := by
        intro x hx
        rcases List.mem_append.mp hx with h | h
        · exact hsub x h
        · rw [List.mem_singleton.mp h]
          exact hcr_mem
      have hk' : num_questions - (selected ++
          [choice (questions.filter (fun q => decide (q ∉ selected)))]).length ≤ k := by
        simp only [List.length_append, List.length_cons, List.length_nil]
        omega
      have hres := ih _ hk' hnd' hsub'
      refine ⟨hres.1, hres.2.1, ?_⟩
      rw [hres.2.2]
      simp only [List.length_append, List.length_cons, List.length_nil]
      omega
    · rw [dif_neg hcond]
      exact ⟨hnd, hsub, by omega⟩

end MockSampler

/-- C9: whatever the random primitives do — `sample l k` returns `k`
distinct elements of `l` when `k ≤ l.length`, `choice` returns an element of
a non-empty list, `shuffle` permutes — on a duplicate-free pool of questions
with valid categories the mock sampler returns exactly
`min num_questions pool-size` questions, all drawn from the pool, none
selected twice; and when the pool is at most the requested total, every pool
question appears in the result. -/
theorem c9_mock_test_size_and_membership
    (sample : List Question → Nat → List Question)
    (choice : List Question → Question) (shuffle : List Question → List Question)
    (questions : List Question) (num_questions : Nat)
    (hsample_len : ∀ l k, k ≤ l.length → (sample l k).length = k)
    (hsample_mem : ∀ l k, k ≤ l.length → ∀ x ∈ sample l k, x ∈ l)
    (hsample_nodup : ∀ l k, k ≤ l.length → l.Nodup → (sample l k).Nodup)
    (hchoice : ∀ l, l ≠ [] → choice l ∈ l)
    (hshuffle : ∀ l, (shuffle l).Perm l)
    (hq : questions.Nodup)
    (hcat : ∀ q ∈ questions, q.category ∈ VALID_CATEGORIES) :
    (generate_balanced_mock_test sample choice shuffle questions
        num_questions).length = min num_questions questions.length ∧
    (∀ x ∈ generate_balanced_mock_test sample choice shuffle questions
        num_questions, x ∈ questions) ∧
    (generate_balanced_mock_test sample choice shuffle questions
        num_questions).Nodup ∧
    (questions.length ≤ num_questions → ∀ q ∈ questions,
      q ∈ generate_balanced_mock_test sample choice shuffle questions
        num_questions) := by
  have h0nd := initialSelection_nodup sample hsample_mem hsample_nodup questions hq
  have h0sub := initialSelection_subset sample hsample_mem questions
  have h0len : (initialSelection sample questions).length ≤ questions.length :=
    (List.subperm_of_subset h0nd h0sub).length_le
  have hfill := fillLoop_spec choice questions num_questions hchoice hq
    (num_questions - (initialSelection sample questions).length)
    (initialSelection sample questions) (le_refl _) h0nd h0sub
  set filled := fillLoop choice questions num_questions
    (initialSelection sample questions) with hfilled
  have hperm := hshuffle filled
  have hres : generate_balanced_mock_test sample choice shuffle questions
      num_questions = (shuffle filled).take num_questions := rfl
  have hlen : (generate_balanced_mock_test sample choice shuffle questions
      num_questions).length = min num_questions questions.length := by
    rw [hres, List.length_take, hperm.length_eq, hfill.2.2]
    omega
  have hmem : ∀ x ∈ generate_balanced_mock_test sample choice shuffle questions
      num_questions, x ∈ questions := by
    intro x hx
    rw [hres] at hx
    exact hfill.2.1 x (hperm.mem_iff.mp (List.take_subset _ _ hx))
  have hnd : (generate_balanced_mock_test sample choice shuffle questions
      num_questions).Nodup := by
    rw [hres]
    exact (List.take_sublist _ _).nodup (hperm.nodup_iff.mpr hfill.1)
  refine ⟨hlen, hmem, hnd, ?_⟩
  intro hle q hq'
  have hlen2 : questions.length ≤ (generate_balanced_mock_test sample choice
      shuffle questions num_questions).length := by
    rw [hlen]
    omega
  have hsp := List.subperm_of_subset hnd hmem
  exact (hsp.perm_of_length_le hlen2).mem_iff.mpr hq'

/-- C9, witness pool: two distinct vehicleLoading questions. -/
def mockQ1 : Question :=
  ⟨"V1", "How should a load be secured?", ["A1", "B1", "C1", "D1"], 0,
   "Loads must always be secured firmly.", "vehicleLoading", "easy", none⟩

/-- C9, second witness question. -/
def mockQ2 : Question :=
  ⟨"V2", "What changes with a loaded roof rack?", ["A2", "B2", "C2", "D2"], 1,
   "A roof rack changes the handling.", "vehicleLoading", "medium", none⟩

/-- C9, deterministic sampler used by the witness. -/
def wSample (l : List Question) (k : Nat) : List Question := l.take k

/-- C9, deterministic chooser used by the witness. -/
def wChoice (l : List Question) : Question := l.headD mockQ1

/-- C9, witness: a pool with only 2 questions, both in "vehicleLoading"
(target 1), requested total 50: the result has size min 2 50 = 2 and
contains both pool questions. -/
theorem c9_witness :
    (generate_balanced_mock_test wSample wChoice id [mockQ1, mockQ2] 50).length
      = 2 ∧
    mockQ1 ∈ generate_balanced_mock_test wSample wChoice id [mockQ1, mockQ2] 50 ∧
    mockQ2 ∈ generate_balanced_mock_test wSample wChoice id [mockQ1, mockQ2] 50 := by
  have h := c9_mock_test_size_and_membership wSample wChoice id [mockQ1, mockQ2] 50
    (by
      intro l k hk
      simp [wSample, List.length_take]
      omega)
    (by
      intro l k _ x hx
      exact List.take_subset _ _ hx)
    (by
      intro l k _ hnd
      exact (List.take_sublist _ _).nodup hnd)
    (by
      intro l hl
      cases l with
      | nil => exact absurd rfl hl
      | cons a l => simp [wChoice])
    (fun l => List.Perm.refl l)
    (by decide) (by decide)
  refine ⟨?_, ?_, ?_⟩
  · rw [h.1, show ([mockQ1, mockQ2] : List Question).length = 2 from rfl]
    omega
  · exact h.2.2.2 (by decide) mockQ1 (by decide)
  · exact h.2.2.2 (by decide) mockQ2 (by decide)

end DrivingTheory
